import Mathlib

/-!
Verification development for the vnts server core.

The Rust sources are shallowly embedded: `std::collections::HashMap` becomes an
association list (`alookup` / `aput` / `aremove`, with `aput` replacing in place
like `HashMap::insert`), `Instant` and `Duration` become `Nat` time stamps in an
abstract unit, and each stateful component becomes explicit state passing.
-/

set_option autoImplicit false

namespace Vnts

/-! ## Association-list model of `HashMap` -/

def alookup {K V : Type} [DecidableEq K] : List (K × V) → K → Option V
  | [], _ => none
  | (k, v) :: rest, key => if k = key then some v else alookup rest key

/-- `HashMap::insert`: replace the binding in place if the key is present,
otherwise add it. -/
def aput {K V : Type} [DecidableEq K] : List (K × V) → K → V → List (K × V)
  | [], key, val => [(key, val)]
  | (k, v) :: rest, key, val =>
    if k = key then (key, val) :: rest else (k, v) :: aput rest key val

/-- `HashMap::remove` on a map with unique keys: drop the first binding. -/
def aremove {K V : Type} [DecidableEq K] : List (K × V) → K → List (K × V)
  | [], _ => []
  | (k, v) :: rest, key => if k = key then rest else (k, v) :: aremove rest key

/-! ## `ExpireMap` (src/core/store/expire_map.rs)

An entry stores the value, its current deadline and its original TTL
(`Value { val, deadline, expire }`).  The background listener receives
`DelayedTask { k, time }` records; `emCheckFire` is one loop iteration of the
task spawned in `ExpireMap::new` (lines 36-49): when a task's time has passed
(`task.time < Instant::now()`), the callback fires only if the entry's current
deadline is `<= now`, and then the entry is removed by `events.remove(&task.k)`
— the removal in the source is unconditional inside the fired branch. -/

structure EntryV (V : Type) where
  val : V
  deadline : Nat
  expire : Nat
  deriving DecidableEq, Repr

structure EMState (K V : Type) where
  base : List (K × EntryV V)
  tasks : List (K × Nat)
  deriving DecidableEq, Repr

def EMState.empty {K V : Type} : EMState K V := ⟨[], []⟩

/-- `ExpireMap::insert(k, val, expire)`: store with `deadline = now + expire`
and queue a delayed task for that deadline. -/
def emInsert {K V : Type} [DecidableEq K] (now : Nat) (st : EMState K V) (k : K) (v : V)
    (expire : Nat) : EMState K V :=
  { base := aput st.base k ⟨v, now + expire, expire⟩
    tasks := st.tasks ++ [(k, now + expire)] }

/-- `ExpireMap::get_and_renew(k)` (lines 78-86): on a hit the deadline is reset
to `now + expire` and the value returned; the Rust value lives behind an `Arc`,
so the renewed entry stays in the shared map. -/
def emGetAndRenew {K V : Type} [DecidableEq K] (now : Nat) (st : EMState K V) (k : K) :
    Option V × EMState K V :=
  match alookup st.base k with
  | some e => (some e.val, { st with base := aput st.base k { e with deadline := now + e.expire } })
  | none => (none, st)

/-- `ExpireMap::get_val(k)`: read without renewal. -/
def emGetVal {K V : Type} [DecidableEq K] (st : EMState K V) (k : K) : Option V :=
  (alookup st.base k).map EntryV.val

/-- `ExpireMap::key_values()`: snapshot of the entries. -/
def emKeyValues {K V : Type} (st : EMState K V) : List (K × V) :=
  st.base.map fun p => (p.1, p.2.val)

/-- `ExpireMap::size()`. -/
def emSize {K V : Type} (st : EMState K V) : Nat := st.base.length

/-- One iteration of the delayed-task listener in `ExpireMap::new`
(expire_map.rs lines 36-49).  Returns the `(k, v)` pair handed to the eviction
callback (if any) and the state after the iteration.  Faithful to the source:
`events.remove(&task.k)` runs whenever `task.time < now`, even when the
deadline check `v.deadline.load() <= now` fails. -/
def emCheckFire {K V : Type} [DecidableEq K] (now : Nat) (st : EMState K V) (task : K × Nat) :
    Option (K × V) × EMState K V :=
  if task.2 < now then
    let fired := match alookup st.base task.1 with
      | some e => if e.deadline ≤ now then some (task.1, e.val) else none
      | none => none
    (fired, { st with base := aremove st.base task.1, tasks := st.tasks })
  else (none, st)

/-! ## Session cache (src/core/store/cache.rs)

`AppCache` composes five expiring maps.  A transport address (`SocketAddr`) is
abstracted as a `Nat`; a group id stays a `String`; a virtual IP is the `u32`
it is in the source.  Of `ClientInfo` (crate::core::entity, not under src/) we
model the fields the eviction callbacks read or write: `address`, `timestamp`
and `online`. -/

abbrev SockAddr := Nat

structure ClientEntry where
  address : SockAddr
  timestamp : Int
  online : Bool
  deriving DecidableEq, Repr

/-- The per-group descriptor held in `virtual_network`
(`Arc<RwLock<NetworkInfo>>` in the source; mutation through the lock is
modelled by writing the updated value back into the map). -/
structure NetworkInfo where
  network_ip : Nat
  mask_ip : Nat
  gateway_ip : Nat
  clients : List (Nat × ClientEntry)
  epoch : Nat
  deriving DecidableEq, Repr

/-- `AppCache` (cache.rs lines 11-21); the cipher value is abstracted. -/
structure AppCacheM where
  virtual_network : EMState String NetworkInfo
  ip_session : EMState (String × Nat) SockAddr
  addr_session : EMState SockAddr (String × Nat × Int)
  cipher_session : EMState SockAddr Nat
  auth_map : EMState String Unit
  deriving DecidableEq, Repr

/-- `AppCache::new()`: five empty maps (the eviction callbacks it wires are
`ipSessionEvict` and `addrSessionEvict` below). -/
def AppCacheM.new : AppCacheM :=
  { virtual_network := EMState.empty
    ip_session := EMState.empty
    addr_session := EMState.empty
    cipher_session := EMState.empty
    auth_map := EMState.empty }

/-- The `ip_session` eviction callback (cache.rs lines 36-53).  Key is
`(group_id, ip)`, value is the bound address.  `get_and_renew` on the group map
renews the group's deadline and yields the shared descriptor; if the client at
`ip` still stores `addr`, it is removed and the epoch bumped. -/
def ipSessionEvict (now : Nat) (vn : EMState String NetworkInfo) (key : String × Nat)
    (addr : SockAddr) : EMState String NetworkInfo :=
  match alookup vn.base key.1 with
  | none => vn
  | some e =>
    let e1 : EntryV NetworkInfo := { e with deadline := now + e.expire }
    let ni := e1.val
    let ni2 := match alookup ni.clients key.2 with
      | none => ni
      | some dev =>
        if dev.address = addr then
          { ni with clients := aremove ni.clients key.2, epoch := ni.epoch + 1 }
        else ni
    { vn with base := aput vn.base key.1 { e1 with val := ni2 } }

/-- The `addr_session` eviction callback (cache.rs lines 56-84).  Key is the
address, value is `(group, virtual_ip, timestamp)`.  If the client at
`virtual_ip` still stores exactly this `(addr, timestamp)` pair, it is flipped
offline and the epoch bumped; on any mismatch the callback returns early. -/
def addrSessionEvict (now : Nat) (vn : EMState String NetworkInfo) (addr : SockAddr)
    (value : String × Nat × Int) : EMState String NetworkInfo :=
  match alookup vn.base value.1 with
  | none => vn
  | some e =>
    let e1 : EntryV NetworkInfo := { e with deadline := now + e.expire }
    let ni := e1.val
    let ni2 := match alookup ni.clients value.2.1 with
      | none => ni
      | some item =>
        if item.address ≠ addr ∨ item.timestamp ≠ value.2.2 then ni
        else
          { ni with clients := aput ni.clients value.2.1 { item with online := false }
                    epoch := ni.epoch + 1 }
    { vn with base := aput vn.base value.1 { e1 with val := ni2 } }

/-- Observer: the group descriptor currently stored for `g`. -/
def groupVal (vn : EMState String NetworkInfo) (g : String) : Option NetworkInfo :=
  (alookup vn.base g).map EntryV.val

/-- Concrete fixture: one online client at virtual IP 2, bound to address 5
with timestamp 9. -/
def clientExample : ClientEntry := { address := 5, timestamp := 9, online := true }

/-- Concrete fixture: a group descriptor holding `clientExample` at epoch 3. -/
def niExample : NetworkInfo :=
  { network_ip := 0x0A1A0000
    mask_ip := 0xFFFFFF00
    gateway_ip := 0x0A1A0001
    clients := [(2, clientExample)]
    epoch := 3 }

/-- Concrete fixture: a `virtual_network` map holding `niExample` under group
id "g". -/
def vnExample : EMState String NetworkInfo :=
  { base := [("g", { val := niExample, deadline := 100, expire := 604800 })], tasks := [] }

/-! ## Configuration (src/config/mod.rs)

An `Ipv4Addr` is its `u32` value (big-endian octets); `ipv4 a b c d` builds
it from dotted-quad octets. -/

def ipv4 (a b c d : Nat) : Nat := ((a * 256 + b) * 256 + c) * 256 + d

/-- `u32::leading_ones` restricted to 32 bits: the number of consecutive set
bits starting from bit 31. -/
def leadingOnes32 (x : Nat) : Nat :=
  ((List.range 32).takeWhile fun i => x.testBit (31 - i)).length

/-- `u32::trailing_zeros` restricted to 32 bits: the number of consecutive
clear bits starting from bit 0 (32 for `x = 0`). -/
def trailingZeros32 (x : Nat) : Nat :=
  ((List.range 32).takeWhile fun i => !x.testBit i).length

/-- `is_valid_netmask` (config/mod.rs lines 195-199). -/
def is_valid_netmask (netmask : Nat) : Bool :=
  leadingOnes32 netmask + trailingZeros32 netmask == 32

/-- Bitwise `!` on a `u32`. -/
def not32 (x : Nat) : Nat := x ^^^ 0xFFFFFFFF

/-- `calculate_broadcast` (config/mod.rs lines 190-193):
`u32::from(ip) | !u32::from(netmask)`. -/
def calculate_broadcast (ip netmask : Nat) : Nat := ip ||| not32 netmask

/-- `Ipv4Addr::is_broadcast`. -/
def is_broadcast (ip : Nat) : Bool := ip == ipv4 255 255 255 255

/-- `Ipv4Addr::is_unspecified`. -/
def is_unspecified (ip : Nat) : Bool := ip == 0

/-- `Ipv4Addr::is_multicast`: 224.0.0.0/4. -/
def is_multicast (ip : Nat) : Bool := ipv4 224 0 0 0 ≤ ip && ip < ipv4 240 0 0 0

/-- `WebManager` (config/mod.rs lines 59-71). -/
structure WebManagerM where
  username : String
  password : String
  web_port : Nat
  deriving DecidableEq, Repr

/-- Parsed CLI `Options` (config/mod.rs lines 16-57); the help/version actions
are omitted. -/
structure OptionsM where
  white_token : Option (List String)
  port : Option Nat
  backlog : Option Nat
  gateway : Option Nat
  netmask : Option Nat
  finger : Bool
  log_path : Option String
  web_manager : Option WebManagerM
  deriving DecidableEq, Repr

/-- `ConfigInfo` (config/mod.rs lines 73-85); `white_token` keeps the list the
source turns into a `HashSet`. -/
structure ConfigInfoM where
  port : Nat
  backlog : Nat
  white_token : Option (List String)
  gateway : Nat
  broadcast : Nat
  netmask : Nat
  finger : Bool
  log_path : Option String
  web_manager : Option WebManagerM
  deriving DecidableEq, Repr

/-- `ConfigInfo::default()` (config/mod.rs lines 167-188). -/
def configDefault : ConfigInfoM :=
  { port := 29872
    backlog := 256
    white_token := none
    gateway := ipv4 10 26 0 1
    netmask := ipv4 255 255 255 0
    broadcast := calculate_broadcast (ipv4 10 26 0 1) (ipv4 255 255 255 0)
    finger := false
    web_manager := some { username := "admin", password := "admin", web_port := 29870 }
    log_path := some "./log" }

/-- The gateway validation in `new_with_options` (lines 96-115): a broadcast,
unspecified or multicast gateway panics (modelled as `none`); the `is_private`
branch only logs a warning. -/
def validateGateway (base : ConfigInfoM) (g : Option Nat) : Option Nat :=
  match g with
  | some gateway =>
    if is_broadcast gateway || is_unspecified gateway || is_multicast gateway then none
    else some gateway
  | none => some base.gateway

/-- The netmask validation in `new_with_options` (lines 117-125): an invalid
mask panics (modelled as `none`). -/
def validateNetmask (base : ConfigInfoM) (m : Option Nat) : Option Nat :=
  match m with
  | some netmask => if is_valid_netmask netmask then some netmask else none
  | none => some base.netmask

/-- `ConfigInfo::new_with_options` (config/mod.rs lines 92-159) as a function
of the parsed `Options`; a `panic!` becomes `none`. -/
def new_with_options (args : OptionsM) : Option ConfigInfoM :=
  match validateGateway configDefault args.gateway with
  | none => none
  | some gateway =>
    match validateNetmask configDefault args.netmask with
    | none => none
    | some netmask =>
      some { port := args.port.getD configDefault.port
             backlog := args.backlog.getD configDefault.backlog
             white_token := args.white_token
             gateway := gateway
             netmask := netmask
             broadcast := calculate_broadcast gateway netmask
             finger := args.finger
             web_manager := match args.web_manager with
               | some wm => if wm.web_port = 0 then none else configDefault.web_manager
               | none => configDefault.web_manager
             log_path := match args.log_path with
               | some p => some p
               | none => configDefault.log_path }

/-- Concrete fixture: a CLI parse that sets no option (every flag left at its
default). -/
def argsExample : OptionsM :=
  { white_token := none
    port := none
    backlog := none
    gateway := none
    netmask := none
    finger := false
    log_path := none
    web_manager := none }

/-! ## Dispatcher (src/core/service/mod.rs) -/

/-- Modelled from the spec: `NetPacket` lives in the protocol collaborator
(`crate::protocol`, not under src/).  The dispatcher reads only its
`is_gateway()` accessor — the "to-gateway" bit of the transport-flag byte — so
a packet is that flag plus its raw octets. -/
structure NetPacketM where
  is_gateway : Bool
  bytes : List Nat
  deriving DecidableEq, Repr

/-- `PacketHandler::handle0` (core/service/mod.rs lines 63-75), parameterized
over the two handlers (`ServerPacketHandler` / `ClientPacketHandler` are not
under src/): a gateway packet goes to the server handler; otherwise
`self.client.handle(net_packet, addr)?` runs for effect and `Ok(None)` is
returned. -/
def handle0 (server : NetPacketM → SockAddr → Except String (Option NetPacketM))
    (client : NetPacketM → SockAddr → Except String Unit)
    (p : NetPacketM) (addr : SockAddr) : Except String (Option NetPacketM) :=
  if p.is_gateway then server p addr
  else
    match client p addr with
    | .ok _ => .ok none
    | .error e => .error e

/-- `PacketHandler::handle` (core/service/mod.rs lines 49-62):
`handle0(..).unwrap_or_else(|e| { log; None })`. -/
def handle (server : NetPacketM → SockAddr → Except String (Option NetPacketM))
    (client : NetPacketM → SockAddr → Except String Unit)
    (p : NetPacketM) (addr : SockAddr) : Option NetPacketM :=
  match handle0 server client p addr with
  | .ok v => v
  | .error _ => none

/-! ## TCP front-end (src/core/server/tcp.rs) -/

/-- The 4-octet frame head the writer sends (tcp.rs line 34):
`[0, 0, (len >> 8) as u8, (len & 0xFF) as u8]`. -/
def frameHead (len : Nat) : List Nat := [0, 0, (len >>> 8) % 256, len &&& 255]

/-- `tcp_read`'s declared length (tcp.rs line 65):
`((head[2] as usize) << 8) | head[3] as usize`.  The head's first two octets
are not consulted. -/
def tcpFrameLen (head : List Nat) : Nat := ((head.getD 2 0) <<< 8) ||| head.getD 3 0

/-- tcp.rs line 61: `let mut buf = [0; 65536]`. -/
def BUF_LEN : Nat := 65536

/-- The length check of `tcp_read` (tcp.rs lines 66-71): error out when
`len < 12 || len > buf.len()`. -/
def tcpFrameCheck (head : List Nat) : Except String Nat :=
  if tcpFrameLen head < 12 ∨ BUF_LEN < tcpFrameLen head then .error "length overflow"
  else .ok (tcpFrameLen head)

/-- One iteration of the `tcp_read` loop (tcp.rs lines 63-85) against the
remaining inbound octet stream: `read_exact` on the 4-octet head (an I/O error
— EOF — if fewer remain), the length check, then `read_exact` of exactly `len`
payload octets.  Returns `(len, payload, rest-of-stream)`. -/
def tcpReadFrame (input : List Nat) : Except String (Nat × List Nat × List Nat) :=
  if input.length < 4 then .error "eof"
  else
    match tcpFrameCheck (input.take 4) with
    | .error e => .error e
    | .ok len =>
      if (input.drop 4).length < len then .error "eof"
      else .ok (len, (input.drop 4).take len, (input.drop 4).drop len)

/-- Observable per-connection actions of the two tasks of `stream_handle`.
`cacheDrop` is in the alphabet so that "the session cache is touched during
teardown" is expressible; the embedded tcp.rs code never emits it (tcp.rs
performs no cache operation). -/
inductive TcpEffect where
  | writeHead (bytes : List Nat)
  | writeBody (bytes : List Nat)
  | shutdown
  | handlePkt (len : Nat) (payload : List Nat)
  | cacheDrop (addr : SockAddr)
  deriving DecidableEq, Repr

def TcpEffect.isCacheDrop : TcpEffect → Bool
  | .cacheDrop _ => true
  | _ => false

/-- The writer task of `stream_handle` (tcp.rs lines 30-46): drain the outbox
channel; for each frame write the 4-octet head then the body, breaking out of
the loop on the first failed `write_all`; after the loop, `w.shutdown()`.
A queue element carries the frame and the outcomes of its two writes
(`false` = write error); the finite queue models the channel up to its
closure. -/
def writerRun : List (List Nat × Bool × Bool) → List TcpEffect
  | [] => [TcpEffect.shutdown]
  | (data, okHead, okBody) :: rest =>
    if okHead then
      if okBody then
        TcpEffect.writeHead (frameHead data.length) :: TcpEffect.writeBody data :: writerRun rest
      else [TcpEffect.writeHead (frameHead data.length), TcpEffect.writeBody data,
            TcpEffect.shutdown]
    else [TcpEffect.writeHead (frameHead data.length), TcpEffect.shutdown]

/-- The reader task (`tcp_read`, tcp.rs lines 54-86) over the whole inbound
stream: frames are read and handed to the dispatcher until an I/O or framing
error ends the task; the loop never exits normally.  Parsing and dispatch are
abstracted into the `handlePkt` effect.  Structural recursion on fuel; each
frame consumes at least 16 octets, so `input.length + 1` fuel can never run
out before an error returns. -/
def tcpReadRunAux : Nat → List Nat → List TcpEffect × String
  | 0, _ => ([], "fuel")
  | fuel + 1, input =>
    match tcpReadFrame input with
    | .error e => ([], e)
    | .ok r =>
      let next := tcpReadRunAux fuel r.2.2
      (TcpEffect.handlePkt r.1 r.2.1 :: next.1, next.2)

def tcpReadRun (input : List Nat) : List TcpEffect × String :=
  tcpReadRunAux (input.length + 1) input

/-! ## Web admin service (src/core/server/web/service/mod.rs) -/

structure LoginData where
  username : String
  password : String
  deriving DecidableEq, Repr

/-- `VntsWebService` state: its own `AppCache` plus the
`AtomicCell<(Instant, usize)>` failure tracker (`login_time`); the immutable
`ConfigInfo` is passed alongside. -/
structure WebState where
  cache : AppCacheM
  login_time : Nat × Nat
  deriving DecidableEq, Repr

/-- `VntsWebService::new` (web/service/mod.rs lines 19-27): builds a fresh
`AppCache::new()` — it does not receive the packet-handling server's cache —
and starts the failure tracker at `(Instant::now(), 0)`. -/
def webNew (now : Nat) : WebState :=
  { cache := AppCacheM.new, login_time := (now, 0) }

/-- `VntsWebService::login` (web/service/mod.rs lines 30-50).  `now` is
`Instant::now()`; `freshAuth` stands for the generated uuid;
`time.elapsed() < 60 s` becomes `now - time < 60`. -/
def webLogin (config : ConfigInfoM) (st : WebState) (now : Nat) (freshAuth : String)
    (ld : LoginData) : Except String String × WebState :=
  let time := st.login_time.1
  let count := st.login_time.2
  if 3 ≤ count ∧ now - time < 60 then (.error "一分钟后再试", st)
  else
    match config.web_manager with
    | some wm =>
      if ld.username = wm.username ∧ ld.password = wm.password then
        (.ok freshAuth,
          { st with
              login_time := (time, 0)
              cache := { st.cache with
                auth_map := emInsert now st.cache.auth_map freshAuth () 86400 } })
      else (.error "账号或密码错误", { st with login_time := (now, count + 1) })
    | none => (.error "账号或密码错误", { st with login_time := (now, count + 1) })

/-- Modelled from the spec: `ExpireMap::get` as called by `check_auth` and
`group_info` is not under src/; §4.3 defines it as "returns v without
renewal", the behaviour `get_val` has in expire_map.rs. -/
def emGet {K V : Type} [DecidableEq K] (st : EMState K V) (k : K) : Option V :=
  (alookup st.base k).map EntryV.val

/-- `VntsWebService::check_auth` (web/service/mod.rs lines 51-53). -/
def webCheckAuth (st : WebState) (auth : String) : Bool :=
  (emGet st.cache.auth_map auth).isSome

/-- `VntsWebService::group_list` (web/service/mod.rs lines 54-63). -/
def webGroupList (st : WebState) : List String :=
  (emKeyValues st.cache.virtual_network).map fun p => p.1

/-- The per-client record `group_info` publishes, restricted to the modelled
`ClientEntry` fields (the v4-mapped-address rewrite, telemetry and timestamp
formatting concern fields outside the model). -/
structure ClientView where
  address : SockAddr
  online : Bool
  virtual_ip : Nat
  deriving DecidableEq, Repr

structure NetworkView where
  network_ip : Nat
  mask_ip : Nat
  gateway_ip : Nat
  clients : List ClientView
  deriving DecidableEq, Repr

def sortInsert (c : ClientView) : List ClientView → List ClientView
  | [] => [c]
  | d :: rest =>
    if c.virtual_ip ≤ d.virtual_ip then c :: d :: rest else d :: sortInsert c rest

/-- `clients.sort_by(|v1, v2| v1.virtual_ip.cmp(&v2.virtual_ip))`
(web/service/mod.rs lines 111-113). -/
def sortByVip : List ClientView → List ClientView
  | [] => []
  | c :: rest => sortInsert c (sortByVip rest)

/-- `VntsWebService::group_info` (web/service/mod.rs lines 64-118): read the
group without renewal, publish its descriptor with the client list sorted by
virtual IP (the key of the client table doubles as the entry's virtual IP). -/
def webGroupInfo (st : WebState) (group : String) : Option NetworkView :=
  match emGet st.cache.virtual_network group with
  | none => none
  | some info =>
    some { network_ip := info.network_ip
           mask_ip := info.mask_ip
           gateway_ip := info.gateway_ip
           clients := sortByVip (info.clients.map fun p =>
             { address := p.2.address, online := p.2.online, virtual_ip := p.1 }) }

/-- The four operations the web service exposes. -/
inductive WebOp where
  | loginOp (now : Nat) (freshAuth : String) (ld : LoginData)
  | checkAuthOp (auth : String)
  | groupListOp
  | groupInfoOp (group : String)

/-- State transition of one web operation: only `login` mutates the service
state; the three queries are reads. -/
def webStep (config : ConfigInfoM) (st : WebState) : WebOp → WebState
  | .loginOp now fresh ld => (webLogin config st now fresh ld).2
  | .checkAuthOp _ => st
  | .groupListOp => st
  | .groupInfoOp _ => st

def webRun (config : ConfigInfoM) (st : WebState) (ops : List WebOp) : WebState :=
  ops.foldl (webStep config) st

end Vnts

namespace Vnts

theorem alookup_aput_self {K V : Type} [DecidableEq K] (l : List (K × V)) (k : K) (v : V) :
    alookup (aput l k v) k = some v := by
  induction l with
  | nil => simp [alookup, aput]
  | cons p rest ih =>
    obtain ⟨a, b⟩ := p
    by_cases h : a = k
    · simp [alookup, aput, h]
    · simp [alookup, aput, h, ih]

/-- C1: For the expiring map, a scheduled deadline check is claimed to leave a
renewed entry untouched, so that after renewals the entry survives for at least
its TTL past the last renewal.  The source contradicts this: insert key 1 with
TTL 10 at time 0, renew at time 5 (deadline becomes 15); when the check
scheduled for the original deadline 10 fires at time 11, the callback is
(correctly) suppressed because 15 > 11, but `events.remove` still runs, so the
entry is gone at time 11 < 15.  This theorem evaluates the embedded listener at
exactly that failing input. -/
theorem C1_stale_check_removes_renewed_entry :
    (emGetAndRenew 5 (emInsert 0 (EMState.empty : EMState Nat Nat) 1 7 10) 1).1 = some 7 ∧
    (alookup (emGetAndRenew 5 (emInsert 0 (EMState.empty : EMState Nat Nat) 1 7 10) 1).2.base
        1).map EntryV.deadline = some 15 ∧
    (emCheckFire 11 (emGetAndRenew 5 (emInsert 0 (EMState.empty : EMState Nat Nat) 1 7 10) 1).2
        (1, 10)).1 = none ∧
    alookup (emCheckFire 11
        (emGetAndRenew 5 (emInsert 0 (EMState.empty : EMState Nat Nat) 1 7 10) 1).2
        (1, 10)).2.base 1 = none := by
  decide

end Vnts

namespace Vnts

/-- C2: When the `addr_session` map evicts a binding `addr → (group,
virtual_ip, timestamp)` and the group exists: if the client entry at
`virtual_ip` still stores exactly this address and timestamp, its online flag
is set to false and the group's epoch is incremented by exactly 1; if the
stored address or timestamp differ, and also when no entry exists at
`virtual_ip`, the client table and the epoch are left unchanged. -/
theorem C2_addr_session_eviction_marks_offline (now : Nat) (vn : EMState String NetworkInfo)
    (g : String) (vip : Nat) (ts : Int) (addr : SockAddr) (ni : NetworkInfo)
    (hg : groupVal vn g = some ni) :
    (∀ item, alookup ni.clients vip = some item → item.address = addr → item.timestamp = ts →
      groupVal (addrSessionEvict now vn addr (g, vip, ts)) g =
        some { ni with clients := aput ni.clients vip { item with online := false }
                       epoch := ni.epoch + 1 }) ∧
    (∀ item, alookup ni.clients vip = some item → item.address ≠ addr ∨ item.timestamp ≠ ts →
      groupVal (addrSessionEvict now vn addr (g, vip, ts)) g = some ni) ∧
    (alookup ni.clients vip = none →
      groupVal (addrSessionEvict now vn addr (g, vip, ts)) g = some ni) := by
  obtain ⟨e, he, hev⟩ := Option.map_eq_some'.mp hg
  subst hev
  refine ⟨?_, ?_, ?_⟩
  · intro item hit haddr hts
    simp [addrSessionEvict, he, hit, haddr, hts, groupVal, alookup_aput_self]
  · intro item hit hne
    rcases hne with h | h
    · simp [addrSessionEvict, he, hit, h, groupVal, alookup_aput_self]
    · simp [addrSessionEvict, he, hit, h, groupVal, alookup_aput_self]
  · intro hnone
    simp [addrSessionEvict, he, hnone, groupVal, alookup_aput_self]

/-- C2 witness: evicting the matching binding `(5 → ("g", 2, 9))` from
`vnExample` flips client 2 offline and bumps the epoch from 3 to 4. -/
theorem C2_addr_session_eviction_marks_offline_witness :
    groupVal (addrSessionEvict 200 vnExample 5 ("g", 2, 9)) "g" =
      some { niExample with
              clients := aput niExample.clients 2 { clientExample with online := false }
              epoch := niExample.epoch + 1 } :=
  (C2_addr_session_eviction_marks_offline 200 vnExample "g" 2 9 5 niExample (by decide)).1
    clientExample (by decide) (by decide) (by decide)

/-- C3: When the `ip_session` map evicts a binding `(group, virtual_ip) →
addr` and the group exists: if the client entry at `virtual_ip` still stores
address `addr`, it is removed from the client table and the epoch is
incremented by 1; otherwise (entry absent or address differs) the client table
and the epoch are unchanged. -/
theorem C3_ip_session_eviction_removes_client (now : Nat) (vn : EMState String NetworkInfo)
    (g : String) (ip : Nat) (addr : SockAddr) (ni : NetworkInfo)
    (hg : groupVal vn g = some ni) :
    (∀ dev, alookup ni.clients ip = some dev → dev.address = addr →
      groupVal (ipSessionEvict now vn (g, ip) addr) g =
        some { ni with clients := aremove ni.clients ip, epoch := ni.epoch + 1 }) ∧
    (∀ dev, alookup ni.clients ip = some dev → dev.address ≠ addr →
      groupVal (ipSessionEvict now vn (g, ip) addr) g = some ni) ∧
    (alookup ni.clients ip = none →
      groupVal (ipSessionEvict now vn (g, ip) addr) g = some ni) := by
  obtain ⟨e, he, hev⟩ := Option.map_eq_some'.mp hg
  subst hev
  refine ⟨?_, ?_, ?_⟩
  · intro dev hit haddr
    simp [ipSessionEvict, he, hit, haddr, groupVal, alookup_aput_self]
  · intro dev hit hne
    simp [ipSessionEvict, he, hit, hne, groupVal, alookup_aput_self]
  · intro hnone
    simp [ipSessionEvict, he, hnone, groupVal, alookup_aput_self]

/-- C3 witness: evicting the matching binding `("g", 2) → 5` from `vnExample`
removes client 2 and bumps the epoch from 3 to 4. -/
theorem C3_ip_session_eviction_removes_client_witness :
    groupVal (ipSessionEvict 200 vnExample ("g", 2) 5) "g" =
      some { niExample with clients := aremove niExample.clients 2
                            epoch := niExample.epoch + 1 } :=
  (C3_ip_session_eviction_removes_client 200 vnExample "g" 2 5 niExample (by decide)).1
    clientExample (by decide) (by decide)

end Vnts

namespace Vnts

/-- C7: `is_valid_netmask m` returns true iff
`leading_ones(u32(m)) + trailing_zeros(u32(m)) = 32`; in particular it accepts
255.255.255.0 and 0.0.0.0 and rejects 255.255.255.1. -/
theorem C7_is_valid_netmask_characterization (m : Nat) :
    (is_valid_netmask m = true ↔ leadingOnes32 m + trailingZeros32 m = 32) ∧
    is_valid_netmask (ipv4 255 255 255 0) = true ∧
    is_valid_netmask (ipv4 255 255 255 1) = false ∧
    is_valid_netmask (ipv4 0 0 0 0) = true := by
  refine ⟨?_, by decide, by decide, by decide⟩
  simp [is_valid_netmask]

/-- C8: `calculate_broadcast g m` is the address with `u32` value
`u32(g) | !u32(m)`, and every configuration `new_with_options` constructs has
its broadcast field derived by this formula from its own gateway and netmask
fields. -/
theorem C8_broadcast_derivation (g m : Nat) (args : OptionsM) (cfg : ConfigInfoM)
    (h : new_with_options args = some cfg) :
    calculate_broadcast g m = (g ||| not32 m) ∧
    cfg.broadcast = calculate_broadcast cfg.gateway cfg.netmask := by
  refine ⟨rfl, ?_⟩
  unfold new_with_options at h
  cases hg : validateGateway configDefault args.gateway with
  | none => rw [hg] at h; exact Option.noConfusion h
  | some gateway =>
    cases hm : validateNetmask configDefault args.netmask with
    | none => rw [hg, hm] at h; exact Option.noConfusion h
    | some netmask =>
      rw [hg, hm] at h
      have h2 := Option.some.inj h
      subst h2
      rfl

/-- C8 witness: with no CLI options set, `new_with_options` yields the default
configuration, whose broadcast 10.26.0.255 is `gateway | !netmask`. -/
theorem C8_broadcast_derivation_witness :
    calculate_broadcast (ipv4 10 26 0 1) (ipv4 255 255 255 0) =
      (ipv4 10 26 0 1 ||| not32 (ipv4 255 255 255 0)) ∧
    configDefault.broadcast = calculate_broadcast configDefault.gateway configDefault.netmask :=
  C8_broadcast_derivation (ipv4 10 26 0 1) (ipv4 255 255 255 0) argsExample configDefault
    (by decide)

end Vnts

namespace Vnts

/-- C4: `PacketHandler::handle` dispatches on the to-gateway flag — gateway
packets to the server handler, all other packets to the client handler (whose
successful handling produces no reply) — and a handler error never propagates
past the dispatcher: `handle` maps it to `None` after logging. -/
theorem C4_dispatch_and_error_containment
    (server : NetPacketM → SockAddr → Except String (Option NetPacketM))
    (client : NetPacketM → SockAddr → Except String Unit)
    (p : NetPacketM) (addr : SockAddr) :
    (p.is_gateway = true → handle0 server client p addr = server p addr) ∧
    (p.is_gateway = false →
      handle0 server client p addr = (client p addr).map fun _ => (none : Option NetPacketM)) ∧
    (∀ e, handle0 server client p addr = .error e → handle server client p addr = none) ∧
    (∀ v, handle0 server client p addr = .ok v → handle server client p addr = v) := by
  refine ⟨?_, ?_, ?_, ?_⟩
  · intro h; simp [handle0, h]
  · intro h
    simp only [handle0, h, Bool.false_eq_true, if_false]
    cases client p addr <;> rfl
  · intro e he; simp [handle, he]
  · intro v hv; simp [handle, hv]

/-- C4 witness: a gateway packet reaches the server handler, and a failing
server handler is contained to a `None` reply. -/
theorem C4_dispatch_and_error_containment_witness :
    handle0 (fun q _ => Except.ok (some q)) (fun _ _ => Except.ok ()) ⟨true, [1]⟩ 0 =
      Except.ok (some ⟨true, [1]⟩) ∧
    handle (fun _ _ => Except.error "boom") (fun _ _ => Except.ok ()) ⟨true, [1]⟩ 0 = none :=
  ⟨(C4_dispatch_and_error_containment (fun q _ => Except.ok (some q))
      (fun _ _ => Except.ok ()) ⟨true, [1]⟩ 0).1 rfl,
   (C4_dispatch_and_error_containment (fun _ _ => Except.error "boom")
      (fun _ _ => Except.ok ()) ⟨true, [1]⟩ 0).2.2.1 "boom" rfl⟩

/-- C5 counterexample: a head whose reserved first two octets are non-zero is
NOT rejected — `tcp_read` never inspects `head[0]` or `head[1]`.  With head
`[1, 2, 0, 12]` the claim demands an error; the code accepts the frame and
reads its 12 payload octets. -/
theorem C5_counterexample_reserved_octets_ignored :
    tcpReadFrame ([1, 2, 0, 12] ++ List.replicate 12 7) =
      Except.ok (12, List.replicate 12 7, []) := rfl

/-- C5 amended: after the 4-octet head is read, the frame is rejected exactly
when the declared length — the big-endian value of octets 2 and 3, hence at
most 65535, so the `len > 65536` arm of the check cannot fire — is below 12;
the two reserved octets are ignored, not validated; on acceptance exactly
`len` payload octets are read and handed to the parser with the rest of the
stream untouched. -/
theorem C5_frame_acceptance (a b c d : Nat) (payload rest : List Nat)
    (hc : c < 256) (hd : d < 256) (hlen : payload.length = tcpFrameLen [a, b, c, d]) :
    tcpFrameLen [a, b, c, d] = tcpFrameLen [0, 0, c, d] ∧
    (tcpFrameCheck [a, b, c, d] = Except.ok (tcpFrameLen [a, b, c, d]) ↔
      12 ≤ tcpFrameLen [a, b, c, d]) ∧
    (12 ≤ tcpFrameLen [a, b, c, d] →
      tcpReadFrame (a :: b :: c :: d :: (payload ++ rest)) =
        Except.ok (tcpFrameLen [a, b, c, d], payload, rest)) := by
  have hb : tcpFrameLen [a, b, c, d] < 65536 := by
    have h1 : c <<< 8 < 2 ^ 16 := by
      have hs : c <<< 8 = c * 256 := by rw [Nat.shiftLeft_eq]
      have h16 : (2 : Nat) ^ 16 = 65536 := by norm_num
      omega
    have h2 : d < 2 ^ 16 := lt_trans hd (by norm_num)
    have h3 := Nat.or_lt_two_pow h1 h2
    have he : tcpFrameLen [a, b, c, d] = c <<< 8 ||| d := rfl
    omega
  refine ⟨rfl, ?_, ?_⟩
  · unfold tcpFrameCheck
    by_cases hcond : tcpFrameLen [a, b, c, d] < 12 ∨ BUF_LEN < tcpFrameLen [a, b, c, d]
    · rw [if_pos hcond]
      constructor
      · intro h; exact Except.noConfusion h
      · intro h12
        rcases hcond with h | h
        · omega
        · exact absurd h (by unfold BUF_LEN at *; omega)
    · rw [if_neg hcond]
      push_neg at hcond
      exact ⟨fun _ => hcond.1, fun _ => rfl⟩
  · intro h12
    have hck : tcpFrameCheck [a, b, c, d] = Except.ok (tcpFrameLen [a, b, c, d]) := by
      unfold tcpFrameCheck
      rw [if_neg]
      push_neg
      refine ⟨h12, ?_⟩
      unfold BUF_LEN
      omega
    have htake : (a :: b :: c :: d :: (payload ++ rest)).take 4 = [a, b, c, d] := rfl
    have hdrop : (a :: b :: c :: d :: (payload ++ rest)).drop 4 = payload ++ rest := rfl
    unfold tcpReadFrame
    rw [if_neg (by simp), htake, hck]
    show (if (List.drop 4 (a :: b :: c :: d :: (payload ++ rest))).length < tcpFrameLen [a, b, c, d]
        then (Except.error "eof" : Except String (Nat × List Nat × List Nat))
        else Except.ok (tcpFrameLen [a, b, c, d],
          (List.drop 4 (a :: b :: c :: d :: (payload ++ rest))).take (tcpFrameLen [a, b, c, d]),
          (List.drop 4 (a :: b :: c :: d :: (payload ++ rest))).drop (tcpFrameLen [a, b, c, d]))) =
      Except.ok (tcpFrameLen [a, b, c, d], payload, rest)
    rw [hdrop, ← hlen, List.take_left, List.drop_left, if_neg (by
      rw [List.length_append]; omega)]

/-- C5 witness: head `[9, 7, 0, 12]` (non-zero reserved octets, length 12)
has the same declared length as `[0, 0, 0, 12]`, passes the check, and its 12
payload octets are handed over with the remainder of the stream intact. -/
theorem C5_frame_acceptance_witness :
    tcpFrameLen [9, 7, 0, 12] = tcpFrameLen [0, 0, 0, 12] ∧
    (tcpFrameCheck [9, 7, 0, 12] = Except.ok (tcpFrameLen [9, 7, 0, 12]) ↔
      12 ≤ tcpFrameLen [9, 7, 0, 12]) ∧
    (12 ≤ tcpFrameLen [9, 7, 0, 12] →
      tcpReadFrame (9 :: 7 :: 0 :: 12 :: (List.replicate 12 5 ++ [1, 2, 3])) =
        Except.ok (tcpFrameLen [9, 7, 0, 12], List.replicate 12 5, [1, 2, 3])) :=
  C5_frame_acceptance 9 7 0 12 (List.replicate 12 5) [1, 2, 3] (by decide) (by decide)
    (by decide)

theorem writerRun_ends_shutdown (script : List (List Nat × Bool × Bool)) :
    ∃ pre, writerRun script = pre ++ [TcpEffect.shutdown] := by
  induction script with
  | nil => exact ⟨[], rfl⟩
  | cons q rest ih =>
    obtain ⟨d, okH, okB⟩ := q
    cases okH
    · exact ⟨[TcpEffect.writeHead (frameHead d.length)], rfl⟩
    · cases okB
      · exact ⟨[TcpEffect.writeHead (frameHead d.length), TcpEffect.writeBody d], rfl⟩
      · obtain ⟨pre, hp⟩ := ih
        refine ⟨TcpEffect.writeHead (frameHead d.length) :: TcpEffect.writeBody d :: pre, ?_⟩
        simp [writerRun, hp]

theorem writerRun_no_cacheDrop (script : List (List Nat × Bool × Bool)) :
    ((writerRun script).all fun e => !e.isCacheDrop) = true := by
  induction script with
  | nil => rfl
  | cons q rest ih =>
    obtain ⟨d, okH, okB⟩ := q
    cases okH
    · rfl
    · cases okB
      · rfl
      · show ((TcpEffect.writeHead (frameHead d.length) :: TcpEffect.writeBody d ::
            writerRun rest).all fun e => !e.isCacheDrop) = true
        rw [List.all_cons, List.all_cons, ih]
        rfl

theorem tcpReadRunAux_no_cacheDrop (fuel : Nat) (input : List Nat) :
    (((tcpReadRunAux fuel input).1).all fun e => !e.isCacheDrop) = true := by
  induction fuel generalizing input with
  | zero => rfl
  | succ n ih =>
    cases h : tcpReadFrame input with
    | error e => simp only [tcpReadRunAux, h]; rfl
    | ok r =>
      simp only [tcpReadRunAux, h]
      rw [List.all_cons, ih]
      rfl

/-- C6 counterexample: teardown touches no session-cache state.  On a failed
body write the writer's whole trace is head write, body write, shutdown; on
immediate EOF the reader's trace is empty with an "eof" error.  The claimed
drop of the connection's address binding appears in neither trace — tcp.rs
makes no cache call, and `AppCache`/`ExpireMap` expose no removal operation at
all. -/
theorem C6_counterexample_teardown_drops_no_binding :
    writerRun [([1, 2, 3], true, false)] =
      [TcpEffect.writeHead (frameHead 3), TcpEffect.writeBody [1, 2, 3],
        TcpEffect.shutdown] ∧
    tcpReadRun [] = ([], "eof") :=
  ⟨rfl, rfl⟩

/-- C6 amended: a failed head or body write makes the writer break out of its
loop and shut the socket down at once (no later frame is written); whenever
the writer's channel closes — as it does when the reader dies — the writer's
trace ends in `shutdown`; an exhausted input stream ends the reader with an
I/O error; and neither task's trace contains a session-cache operation: the
address binding is left to its 20-second TTL instead of being dropped.  Both
traces are built from the connection's own stream and queue alone, so a
teardown involves no other connection's state and not the UDP loop. -/
theorem C6_teardown_traces (data : List Nat) (okB : Bool)
    (q script : List (List Nat × Bool × Bool)) (input : List Nat) :
    writerRun ((data, false, okB) :: q) =
      [TcpEffect.writeHead (frameHead data.length), TcpEffect.shutdown] ∧
    writerRun ((data, true, false) :: q) =
      [TcpEffect.writeHead (frameHead data.length), TcpEffect.writeBody data,
        TcpEffect.shutdown] ∧
    (∃ pre, writerRun script = pre ++ [TcpEffect.shutdown]) ∧
    tcpReadRun [] = ([], "eof") ∧
    ((writerRun script).all fun e => !e.isCacheDrop) = true ∧
    (((tcpReadRun input).1).all fun e => !e.isCacheDrop) = true :=
  ⟨rfl, rfl, writerRun_ends_shutdown script, rfl, writerRun_no_cacheDrop script,
    tcpReadRunAux_no_cacheDrop (input.length + 1) input⟩

end Vnts

namespace Vnts

/-- C9: Web login is rate-limited: with the stored failure counter at 3 or
more and fewer than 60 seconds since the recorded instant, `login` returns the
rate-limit error without evaluating the supplied credentials (the result does
not depend on them, and the state is untouched); every other failed attempt
stores `(now, count + 1)`; every successful login resets the counter to 0
(keeping the recorded instant). -/
theorem C9_login_rate_limited (config : ConfigInfoM) (st : WebState) (now : Nat)
    (fresh : String) (ld ld2 : LoginData) :
    (3 ≤ st.login_time.2 → now - st.login_time.1 < 60 →
      (webLogin config st now fresh ld).1 = Except.error "一分钟后再试" ∧
      webLogin config st now fresh ld = webLogin config st now fresh ld2) ∧
    (∀ e, (webLogin config st now fresh ld).1 = Except.error e → e ≠ "一分钟后再试" →
      (webLogin config st now fresh ld).2.login_time = (now, st.login_time.2 + 1)) ∧
    (∀ a, (webLogin config st now fresh ld).1 = Except.ok a →
      (webLogin config st now fresh ld).2.login_time = (st.login_time.1, 0)) := by
  by_cases hrl : 3 ≤ st.login_time.2 ∧ now - st.login_time.1 < 60
  · refine ⟨fun _ _ => ⟨by simp [webLogin, hrl], by simp [webLogin, hrl]⟩, ?_, ?_⟩
    · intro e he hne
      exfalso
      apply hne
      simp [webLogin, hrl] at he
      exact he.symm
    · intro a ha
      simp [webLogin, hrl] at ha
  · refine ⟨fun h1 h2 => absurd ⟨h1, h2⟩ hrl, ?_, ?_⟩
    · intro e he hne
      cases hwm : config.web_manager with
      | none => simp [webLogin, hrl, hwm]
      | some wm =>
        by_cases hcred : ld.username = wm.username ∧ ld.password = wm.password
        · simp [webLogin, hrl, hwm, hcred] at he
        · simp [webLogin, hrl, hwm, hcred]
    · intro a ha
      cases hwm : config.web_manager with
      | none => simp [webLogin, hrl, hwm] at ha
      | some wm =>
        by_cases hcred : ld.username = wm.username ∧ ld.password = wm.password
        · simp [webLogin, hrl, hwm, hcred]
        · simp [webLogin, hrl, hwm, hcred] at ha

/-- C9 witness: with the failure counter at 5 recorded at t = 0, a login at
t = 30 with the correct admin credentials is still rejected with the
rate-limit error, and the outcome is the same as with wrong credentials. -/
theorem C9_login_rate_limited_witness :
    (webLogin configDefault { cache := AppCacheM.new, login_time := (0, 5) } 30 "t"
        { username := "admin", password := "admin" }).1 = Except.error "一分钟后再试" ∧
    webLogin configDefault { cache := AppCacheM.new, login_time := (0, 5) } 30 "t"
        { username := "admin", password := "admin" } =
      webLogin configDefault { cache := AppCacheM.new, login_time := (0, 5) } 30 "t"
        { username := "x", password := "y" } :=
  (C9_login_rate_limited configDefault { cache := AppCacheM.new, login_time := (0, 5) } 30 "t"
      { username := "admin", password := "admin" } { username := "x", password := "y" }).1
    (by decide) (by decide)

theorem webStep_preserves_vn (config : ConfigInfoM) (st : WebState) (op : WebOp) :
    (webStep config st op).cache.virtual_network = st.cache.virtual_network := by
  cases op with
  | loginOp now fresh ld =>
    by_cases hrl : 3 ≤ st.login_time.2 ∧ now - st.login_time.1 < 60
    · simp [webStep, webLogin, hrl]
    · cases hwm : config.web_manager with
      | none => simp [webStep, webLogin, hrl, hwm]
      | some wm =>
        by_cases hcred : ld.username = wm.username ∧ ld.password = wm.password
        · simp [webStep, webLogin, hrl, hwm, hcred]
        · simp [webStep, webLogin, hrl, hwm, hcred]
  | checkAuthOp a => rfl
  | groupListOp => rfl
  | groupInfoOp g => rfl

theorem webRun_preserves_vn (config : ConfigInfoM) (ops : List WebOp) (st : WebState) :
    (webRun config st ops).cache.virtual_network = st.cache.virtual_network := by
  induction ops generalizing st with
  | nil => rfl
  | cons op rest ih =>
    show (webRun config (webStep config st op) rest).cache.virtual_network = _
    rw [ih, webStep_preserves_vn]

/-- C10: `VntsWebService::new` builds its own fresh, empty `AppCache` (it is
not handed the packet-handling server's cache), and no web operation writes to
the `virtual_network` map; hence after any sequence of login, check_auth,
group_list and group_info calls, `group_list()` is empty and `group_info(g)`
is `None` for every group. -/
theorem C10_web_cache_isolation (config : ConfigInfoM) (now : Nat) (ops : List WebOp)
    (g : String) :
    (webNew now).cache = AppCacheM.new ∧
    (webRun config (webNew now) ops).cache.virtual_network = EMState.empty ∧
    webGroupList (webRun config (webNew now) ops) = [] ∧
    webGroupInfo (webRun config (webNew now) ops) g = none := by
  have hvn : (webRun config (webNew now) ops).cache.virtual_network = EMState.empty :=
    webRun_preserves_vn config ops (webNew now)
  refine ⟨rfl, hvn, ?_, ?_⟩
  · simp [webGroupList, emKeyValues, hvn, EMState.empty]
  · simp [webGroupInfo, emGet, hvn, EMState.empty, alookup]

end Vnts
